import Mathlib

/-!
Verification of the telemetry packet decoding protocol and rate-limited
ingestion pipeline of `src/main.py` (fh4-dashboard).

The embedding follows the source closely:
* `ATTRS` is the ordered field table (name, `ustruct` format character).
* `structSize` / `calcsize` model `ustruct.calcsize` for the format
  characters appearing in this schema (the `<` byte-order marker
  contributes zero bytes).
* `PACKET_FORMAT`, `PACKET_SIZE`, `PACKET_SIZE_BEFORE_UNKNOWN_DATA` are
  the module-level constants, computed exactly as the source computes
  them (including the slice `PACKET_FORMAT[:UNKNOWN_DATA_INDEX]`, which
  retains the leading `<` character).
* `splice`, `unpack`, `decode` model the body of the receive loop:
  removal of the 12 unknown bytes followed by `ustruct.unpack`.
  `ustruct.unpack` is modelled with the standard `struct` contract: it
  fails unless the buffer length equals `calcsize` of the format, and
  otherwise deserializes each field little-endian.
* `serveStep` / `serveRun` / `serveTrace` model one iteration / a finite
  run of the `serve` loop: the 50 ms rate gate, decoding, and the
  `last_update` state.  The source has no exception handler, so a failed
  unpack is modelled as `StepOutcome.error`: the exception escapes the
  loop body and the run stops.
* `format_speed`, `computeWidth` model the display arithmetic over `ℚ`,
  with Python `int()` truncation toward zero as `pyInt`.
-/

/-- Byte width `ustruct.calcsize` assigns to a single format character of
this schema; the byte-order marker `<` occupies no bytes.  Only the
characters `i I f H B b <` occur in `PACKET_FORMAT`; the catch-all is
never reached on the format strings of this development. -/
def structSize (c : Char) : Nat :=
  if c = 'i' ∨ c = 'I' ∨ c = 'f' then 4
  else if c = 'H' then 2
  else if c = 'B' ∨ c = 'b' then 1
  else 0

/-- Size in bytes of a format string, as `ustruct.calcsize`. -/
def calcsize (fmt : List Char) : Nat := (fmt.map structSize).sum

/-- The ordered field table of `src/main.py` (`ATTRS`): field name and
`ustruct` format character, in wire order.  The 12 unknown bytes sit
between `num_cylinders` and `position_x`. -/
def ATTRS : List (String × Char) :=
  [("is_race_on", 'i'),
   ("timestamp_ms", 'I'),
   ("engine_max_rpm", 'f'),
   ("engine_idle_rpm", 'f'),
   ("current_engine_rpm", 'f'),
   ("acceleration_x", 'f'),
   ("acceleration_y", 'f'),
   ("acceleration_z", 'f'),
   ("velocity_x", 'f'),
   ("velocity_y", 'f'),
   ("velocity_z", 'f'),
   ("angular_velocity_x", 'f'),
   ("angular_velocity_y", 'f'),
   ("angular_velocity_z", 'f'),
   ("yaw", 'f'),
   ("pitch", 'f'),
   ("roll", 'f'),
   ("normalized_suspension_travel_front_left", 'f'),
   ("normalized_suspension_travel_front_right", 'f'),
   ("normalized_suspension_travel_rear_left", 'f'),
   ("normalized_suspension_travel_rear_right", 'f'),
   ("tire_slip_ratio_front_left", 'f'),
   ("tire_slip_ratio_front_right", 'f'),
   ("tire_slip_ratio_rear_left", 'f'),
   ("tire_slip_ratio_rear_right", 'f'),
   ("wheel_rotation_speed_front_left", 'f'),
   ("wheel_rotation_speed_front_right", 'f'),
   ("wheel_rotation_speed_rear_left", 'f'),
   ("wheel_rotation_speed_rear_right", 'f'),
   ("wheel_on_rumble_strip_front_left", 'i'),
   ("wheel_on_rumble_strip_front_right", 'i'),
   ("wheel_on_rumble_strip_rear_left", 'i'),
   ("wheel_on_rumble_strip_rear_right", 'i'),
   ("wheel_in_puddle_depth_front_left", 'f'),
   ("wheel_in_puddle_depth_front_right", 'f'),
   ("wheel_in_puddle_depth_rear_left", 'f'),
   ("wheel_in_puddle_depth_rear_right", 'f'),
   ("surface_rumble_front_left", 'f'),
   ("surface_rumble_front_right", 'f'),
   ("surface_rumble_rear_left", 'f'),
   ("surface_rumble_rear_right", 'f'),
   ("tire_slip_angle_front_left", 'f'),
   ("tire_slip_angle_front_right", 'f'),
   ("tire_slip_angle_rear_left", 'f'),
   ("tire_slip_angle_rear_right", 'f'),
   ("tire_combined_slip_front_left", 'f'),
   ("tire_combined_slip_front_right", 'f'),
   ("tire_combined_slip_rear_left", 'f'),
   ("tire_combined_slip_rear_right", 'f'),
   ("suspension_travel_meters_front_left", 'f'),
   ("suspension_travel_meters_front_right", 'f'),
   ("suspension_travel_meters_rear_left", 'f'),
   ("suspension_travel_meters_rear_right", 'f'),
   ("car_ordinal", 'i'),
   ("car_class", 'i'),
   ("car_performance_index", 'i'),
   ("drivetrain_type", 'i'),
   ("num_cylinders", 'i'),
   ("position_x", 'f'),
   ("position_y", 'f'),
   ("position_z", 'f'),
   ("speed", 'f'),
   ("power", 'f'),
   ("torque", 'f'),
   ("tire_temp_front_left", 'f'),
   ("tire_temp_front_right", 'f'),
   ("tire_temp_rear_left", 'f'),
   ("tire_temp_rear_right", 'f'),
   ("boost", 'f'),
   ("fuel", 'f'),
   ("distance_traveled", 'f'),
   ("best_lap", 'f'),
   ("last_lap", 'f'),
   ("current_lap", 'f'),
   ("current_race_time", 'f'),
   ("lap_number", 'H'),
   ("race_position", 'B'),
   ("accel", 'B'),
   ("brake", 'B'),
   ("clutch", 'B'),
   ("hand_brake", 'B'),
   ("gear", 'B'),
   ("steer", 'b'),
   ("normalized_driving_line", 'b'),
   ("normalized_ai_brake_difference", 'b')]

/-- Index of the first field after the unknown data (`UNKNOWN_DATA_INDEX`). -/
def UNKNOWN_DATA_INDEX : Nat := 58

/-- Width in bytes of the unknown data region (`UNKNOWN_DATA_SIZE`). -/
def UNKNOWN_DATA_SIZE : Nat := 12

/-- The format string passed to `ustruct.unpack`:
`"<" + "".join(k[1] for k in ATTRS)`, as a character list. -/
def PACKET_FORMAT : List Char := '<' :: ATTRS.map Prod.snd

/-- Wire size of an unpacked record: `ustruct.calcsize(PACKET_FORMAT)`. -/
def PACKET_SIZE : Nat := calcsize PACKET_FORMAT

/-- The splice point used by the receive loop, exactly as the source
computes it: `ustruct.calcsize(PACKET_FORMAT[:UNKNOWN_DATA_INDEX])`.
The slice is over the format string, whose first character is `<`. -/
def PACKET_SIZE_BEFORE_UNKNOWN_DATA : Nat :=
  calcsize (PACKET_FORMAT.take UNKNOWN_DATA_INDEX)

/-- Byte offset of the field at a given schema index, per the spec:
the sum of the byte widths of all preceding fields.  This is the
spec-side comparator for the splice constant. -/
def offset_of (i : Nat) : Nat := ((ATTRS.take i).map fun a => structSize a.2).sum

/-- A decoded scalar, tagged with its wire type.  Floating-point fields
are carried as their 32-bit pattern: `ustruct` packing and unpacking of
an IEEE single is the identity on the bit pattern, so round-trip
statements over bit patterns cover every float value, fractional ones
included. -/
inductive WireValue where
  | i32 (v : Int)
  | u32 (v : Nat)
  | f32 (bits : Nat)
  | u16 (v : Nat)
  | u8 (v : Nat)
  | i8 (v : Int)
deriving DecidableEq, Repr

/-- Little-endian reassembly of a byte list into a natural number. -/
def leNat : List Nat → Nat
  | [] => 0
  | b :: bs => b + 256 * leNat bs

/-- Two's-complement reinterpretation of a `w`-byte unsigned value. -/
def toSigned (w n : Nat) : Int :=
  if n < 2 ^ (8 * w - 1) then (n : Int) else (n : Int) - 2 ^ (8 * w)

/-- Deserialize one field from its byte slice, per its format character.
The catch-all is unreachable on this schema's characters. -/
def decodeValue : Char → List Nat → WireValue
  | 'i', bs => .i32 (toSigned 4 (leNat bs))
  | 'I', bs => .u32 (leNat bs)
  | 'f', bs => .f32 (leNat bs)
  | 'H', bs => .u16 (leNat bs)
  | 'B', bs => .u8 (leNat bs)
  | 'b', bs => .i8 (toSigned 1 (leNat bs))
  | _, _ => .u32 0

/-- Sequential deserialization against the field table: read
`structSize` bytes per field at the running offset. -/
def unpackGo : List (String × Char) → List Nat → List WireValue
  | [], _ => []
  | (_, c) :: rest, bs =>
    decodeValue c (bs.take (structSize c)) :: unpackGo rest (bs.drop (structSize c))

/-- Model of `ustruct.unpack(PACKET_FORMAT, data)`: fails (raises, here
`none`) unless the buffer length equals `calcsize` of the format,
otherwise yields one value per schema field. -/
def unpack (bs : List Nat) : Option (List WireValue) :=
  if bs.length = PACKET_SIZE then some (unpackGo ATTRS bs) else none

/-- The padding removal performed by the receive loop:
`data[:PACKET_SIZE_BEFORE_UNKNOWN_DATA] + data[PACKET_SIZE_BEFORE_UNKNOWN_DATA + 12:]`. -/
def splice (d : List Nat) : List Nat :=
  d.take PACKET_SIZE_BEFORE_UNKNOWN_DATA ++ d.drop (PACKET_SIZE_BEFORE_UNKNOWN_DATA + 12)

/-- The decode step of one loop iteration: splice, then unpack. -/
def decode (d : List Nat) : Option (List WireValue) := unpack (splice d)

/-- Little-endian byte list of width `w` for a natural number. -/
def natLE (w n : Nat) : List Nat := (List.range w).map fun i => n / 256 ^ i % 256

/-- Encode one value little-endian at its wire width; signed values are
encoded in two's complement. -/
def encodeValue : WireValue → List Nat
  | .i32 v => natLE 4 (v % 2 ^ 32).toNat
  | .u32 v => natLE 4 v
  | .f32 b => natLE 4 b
  | .u16 v => natLE 2 v
  | .u8 v => natLE 1 v
  | .i8 v => natLE 1 (v % 2 ^ 8).toNat

/-- Modelled from the spec's round-trip property (the repository has no
encoder): pack the fields in schema order little-endian and insert the
12 pad bytes after the field at index 57, i.e. after the first
`UNKNOWN_DATA_INDEX = 58` fields, at byte offset 232. -/
def encodeRecord (vals : List WireValue) (pad : List Nat) : List Nat :=
  ((vals.take UNKNOWN_DATA_INDEX).map encodeValue).flatten ++ pad ++
    ((vals.drop UNKNOWN_DATA_INDEX).map encodeValue).flatten

/-- Zero value of a wire type, by format character. -/
def zeroValue : Char → WireValue
  | 'i' => .i32 0
  | 'I' => .u32 0
  | 'f' => .f32 0
  | 'H' => .u16 0
  | 'B' => .u8 0
  | _ => .i8 0

/-- The all-zero record for this schema. -/
def zeroRecord : List WireValue := ATTRS.map fun a => zeroValue a.2

/-- A concrete record for the round-trip check: all fields zero except
`num_cylinders` (field index 57), set to 6. -/
def testRecord : List WireValue := zeroRecord.set 57 (WireValue.i32 6)

/-- Initial value of `last_update` in `serve`, set before the loop. -/
def initialLastUpdate : Int := 0

/-- Outcome of one iteration of the `serve` loop on a received datagram:
dropped by the rate gate (state unchanged, loop continues), accepted
(decoded record forwarded to the display, `last_update := now`), or an
uncaught unpack exception (`serve` has no handler, so the loop body is
exited and the loop terminates). -/
inductive StepOutcome where
  | dropped
  | accepted (tel : List WireValue)
  | error
deriving DecidableEq, Repr

/-- One iteration of the `serve` loop, given the current `last_update`,
the monotonic clock reading `now`, and the received datagram `d`. -/
def serveStep (last now : Int) (d : List Nat) : StepOutcome :=
  if now - last < 50 then .dropped
  else
    match decode d with
    | some tel => .accepted tel
    | none => .error

/-- Result of running the loop over a finite list of arrival events:
whether an exception escaped, the final `last_update`, and the clock
readings of the datagrams forwarded to the sinks, in order. -/
structure RunResult where
  crashed : Bool
  last : Int
  forwarded : List Int
deriving DecidableEq, Repr

/-- Run the `serve` loop over a finite event list, each event a clock
reading paired with the received datagram.  An unpack exception stops
the run (no handler in the source). -/
def serveRun (last : Int) : List (Int × List Nat) → RunResult
  | [] => ⟨false, last, []⟩
  | (now, d) :: rest =>
    match serveStep last now d with
    | .dropped => serveRun last rest
    | .accepted _ =>
      let r := serveRun now rest
      ⟨r.crashed, r.last, now :: r.forwarded⟩
    | .error => ⟨true, last, []⟩

/-- The successive values of `last_update` observed after each loop
iteration (the run stops at an uncaught exception). -/
def serveTrace (last : Int) : List (Int × List Nat) → List Int
  | [] => []
  | (now, d) :: rest =>
    match serveStep last now d with
    | .dropped => last :: serveTrace last rest
    | .accepted _ => now :: serveTrace now rest
    | .error => [last]

/-- A well-formed datagram: correct total length, all bytes zero. -/
def goodDatagram : List Nat := List.replicate (PACKET_SIZE + UNKNOWN_DATA_SIZE) 0

/-- The spec's synthetic arrival sequence for the rate-gate test:
well-formed datagrams at clock offsets 0, 10, 10, 60, 61 ms. -/
def rateGateEvents : List (Int × List Nat) :=
  [(0, goodDatagram), (10, goodDatagram), (10, goodDatagram),
   (60, goodDatagram), (61, goodDatagram)]

/-- Python `int()` applied to a rational: truncation toward zero. -/
def pyInt (q : ℚ) : ℤ := q.num.tdiv q.den

/-- Model of `format_speed`: `int(speed_mps * 3600 / 1000)`. -/
def format_speed (speed_mps : ℚ) : ℤ := pyInt (speed_mps * 3600 / 1000)

/-- The RPM bar computation of the `serve` loop, with the branch taken
recorded: the division `current_engine_rpm / engine_max_rpm` is
evaluated only under the truthiness guard `engine_max_rpm != 0`
(first component `true`); otherwise the width is the constant 0. -/
def computeWidthBranch (w : ℤ) (maxRpm curRpm : ℚ) : Bool × ℤ :=
  if maxRpm ≠ 0 then (true, pyInt ((w : ℚ) * (curRpm / maxRpm))) else (false, 0)

/-- The RPM bar width drawn by the `serve` loop:
`int(SSD1306_WIDTH * (current_engine_rpm / engine_max_rpm))` when
`engine_max_rpm` is truthy, else 0.  `SSD1306_WIDTH` comes from the
configuration and is kept as the parameter `w`. -/
def computeWidth (w : ℤ) (maxRpm curRpm : ℚ) : ℤ :=
  (computeWidthBranch w maxRpm curRpm).2

section Theorems

/-- C1: the precomputed splice constant `PACKET_SIZE_BEFORE_UNKNOWN_DATA`
does not equal `offset_of 58 = 232` as the spec claims: because the slice
`PACKET_FORMAT[:58]` retains the leading `<` byte-order character, only
the first 57 field codes are counted and the constant evaluates to 228. -/
theorem c1_splice_constant_bug :
    PACKET_SIZE_BEFORE_UNKNOWN_DATA = 228 ∧ offset_of UNKNOWN_DATA_INDEX = 232 ∧
      PACKET_SIZE_BEFORE_UNKNOWN_DATA ≠ offset_of UNKNOWN_DATA_INDEX :=
  ⟨rfl, rfl, by decide⟩

/-- Sequential deserialization yields exactly one value per field. -/
theorem unpackGo_length (fs : List (String × Char)) (bs : List Nat) :
    (unpackGo fs bs).length = fs.length := by
  induction fs generalizing bs with
  | nil => rfl
  | cons f rest ih => simp [unpackGo, ih]

/-- Length of the spliced payload in terms of the datagram length. -/
theorem splice_length (d : List Nat) :
    (splice d).length = min PACKET_SIZE_BEFORE_UNKNOWN_DATA d.length +
      (d.length - (PACKET_SIZE_BEFORE_UNKNOWN_DATA + 12)) := by
  simp [splice]

/-- C3: the decode step fails exactly when the datagram length is not
`PACKET_SIZE + UNKNOWN_DATA_SIZE = 323`, and on success produces one
value per schema field.  In particular it fails at lengths 310, 311, 322
and 324, and succeeds at 323. -/
theorem c3_decode_length_iff (d : List Nat) :
    (decode d).map List.length =
      if d.length = PACKET_SIZE + UNKNOWN_DATA_SIZE then some ATTRS.length else none := by
  have h228 : PACKET_SIZE_BEFORE_UNKNOWN_DATA = 228 := rfl
  have h311 : PACKET_SIZE = 311 := rfl
  have h12 : UNKNOWN_DATA_SIZE = 12 := rfl
  by_cases hd : d.length = PACKET_SIZE + UNKNOWN_DATA_SIZE
  · have hlen : (splice d).length = PACKET_SIZE := by
      rw [splice_length, h228, h311]
      rw [h311, h12] at hd
      omega
    rw [if_pos hd]
    simp [decode, unpack, hlen, unpackGo_length]
  · have hlen : (splice d).length ≠ PACKET_SIZE := by
      rw [splice_length, h228, h311]
      rw [h311, h12] at hd
      omega
    rw [if_neg hd]
    simp [decode, unpack, hlen]

set_option maxRecDepth 100000 in
/-- C5: the round-trip fails on this code.  Encoding a record whose only
nonzero field is `num_cylinders = 6` (index 57), with the 12 pad bytes
inserted at the correct position (byte 232), and decoding it yields the
all-zero record: the splice removes bytes [228, 240), i.e. the four
bytes of `num_cylinders` and only eight pad bytes, so the decoded
`num_cylinders` is read from pad bytes instead of its own. -/
theorem c5_roundtrip_fails :
    decode (encodeRecord testRecord (List.replicate 12 0)) = some zeroRecord ∧
      zeroRecord ≠ testRecord :=
  ⟨by decide, by decide⟩

/-- A gate-passing iteration drops into the rate gate when `now - last < 50`. -/
theorem serveStep_eq_dropped (last now : Int) (d : List Nat) (h : now - last < 50) :
    serveStep last now d = .dropped := by
  unfold serveStep
  rw [if_pos h]

/-- A gate-passing iteration on an undecodable datagram raises. -/
theorem serveStep_eq_error (last now : Int) (d : List Nat) (hg : ¬ now - last < 50)
    (hl : decode d = none) : serveStep last now d = .error := by
  unfold serveStep
  rw [if_neg hg, hl]

/-- A gate-passing iteration on a decodable datagram accepts it. -/
theorem serveStep_eq_accepted (last now : Int) (d : List Nat) (hg : ¬ now - last < 50)
    (tel : List WireValue) (hl : decode d = some tel) :
    serveStep last now d = .accepted tel := by
  unfold serveStep
  rw [if_neg hg, hl]

set_option maxRecDepth 100000 in
/-- C2 counterexample: a 322-byte datagram (spliced length 310, not the
311 bytes of `PACKET_SIZE`) received at `now = 50` with `last_update = 0`
makes the iteration raise an uncaught exception instead of dropping the
datagram and continuing: `serve` has no handler around `ustruct.unpack`. -/
theorem c2_malformed_crashes_cex :
    serveStep 0 50 (List.replicate 322 0) = .error ∧
      StepOutcome.error ≠ StepOutcome.dropped :=
  ⟨by decide, by decide⟩

/-- C2 amended: for every gate-passing iteration on a datagram whose
spliced payload length differs from `PACKET_SIZE`, the unpack step
fails and the exception escapes the loop body (the loop terminates);
`last_update` is not updated at that point. -/
theorem c2_malformed_raises (last now : Int) (d : List Nat) (hg : ¬ now - last < 50)
    (hl : (splice d).length ≠ PACKET_SIZE) : serveStep last now d = .error := by
  unfold serveStep
  rw [if_neg hg]
  unfold decode unpack
  rw [if_neg hl]

set_option maxRecDepth 100000 in
/-- C2 amended, witnessed at the counterexample input. -/
theorem c2_malformed_raises_witness : serveStep 0 50 (List.replicate 322 0) = .error :=
  c2_malformed_raises 0 50 (List.replicate 322 0) (by decide) (by decide)

set_option maxRecDepth 100000 in
/-- C4 counterexample: on the arrival sequence at offsets 0, 10, 10, 60,
61 ms the loop does not forward the packets at offsets 0 and 60: with
`last_update` initialized to 0, the packet at offset 0 fails the gate
test `0 - 0 < 50` and is dropped, so only the packet at offset 60 is
forwarded. -/
theorem c4_rate_gate_cex :
    (serveRun initialLastUpdate rateGateEvents).forwarded ≠ [(0 : Int), 60] := by
  decide

set_option maxRecDepth 100000 in
/-- C4 amended: on the arrival sequence at offsets 0, 10, 10, 60, 61 ms
with the 50 ms gate, exactly the packet at offset 60 is forwarded to the
sinks, the other four are dropped, no exception occurs, and
`last_update` equals 60 after the run. -/
theorem c4_rate_gate_amended :
    serveRun initialLastUpdate rateGateEvents = ⟨false, 60, [60]⟩ := by
  decide

/-- C6: `last_update` is initialized to 0, so every datagram received
while the monotonic clock reads less than 50 is discarded by the gate
even though nothing has been accepted yet. -/
theorem c6_initial_gate_drops (now : Int) (d : List Nat) (h : now < 50) :
    initialLastUpdate = 0 ∧ serveStep initialLastUpdate now d = .dropped := by
  refine ⟨rfl, ?_⟩
  have h0 : now - initialLastUpdate < 50 := by
    rw [show initialLastUpdate = (0 : Int) from rfl]
    omega
  unfold serveStep
  rw [if_pos h0]

/-- C6 witnessed: a well-formed first datagram arriving at clock
reading 0 is dropped. -/
theorem c6_initial_gate_drops_witness :
    initialLastUpdate = 0 ∧ serveStep initialLastUpdate 0 goodDatagram = .dropped :=
  c6_initial_gate_drops 0 goodDatagram (by decide)

/-- C7: with `engine_max_rpm = 0` the computed bar width is 0 for every
display width and every non-negative `current_engine_rpm`, and the
division branch is not evaluated (the truthiness guard selects the
constant branch). -/
theorem c7_zero_max_rpm_width (w : ℤ) (curRpm : ℚ) (_h : 0 ≤ curRpm) :
    computeWidth w 0 curRpm = 0 ∧ (computeWidthBranch w 0 curRpm).1 = false := by
  constructor <;> simp [computeWidth, computeWidthBranch]

/-- C7 witnessed at a concrete record. -/
theorem c7_zero_max_rpm_width_witness :
    computeWidth 128 0 7000 = 0 ∧ (computeWidthBranch 128 0 7000).1 = false :=
  c7_zero_max_rpm_width 128 7000 (by norm_num)

/-- The `last_update` trace of any finite run is non-decreasing from its
starting value: a dropped or failing iteration leaves it unchanged, and
an accepting iteration sets it to `now` with `now - last ≥ 50`. -/
theorem serveTrace_chain (last : Int) (events : List (Int × List Nat)) :
    (last :: serveTrace last events).Chain' (· ≤ ·) := by
  induction events generalizing last with
  | nil => simp [serveTrace]
  | cons e rest ih =>
    obtain ⟨now, d⟩ := e
    by_cases hg : now - last < 50
    · have hs := serveStep_eq_dropped last now d hg
      simp only [serveTrace, hs]
      rw [List.chain'_cons]
      exact ⟨le_refl _, ih last⟩
    · rcases hdec : decode d with _ | tel
      · have hs := serveStep_eq_error last now d hg hdec
        simp only [serveTrace, hs]
        rw [List.chain'_cons]
        exact ⟨le_refl _, List.chain'_singleton _⟩
      · have hs := serveStep_eq_accepted last now d hg tel hdec
        simp only [serveTrace, hs]
        rw [List.chain'_cons]
        exact ⟨by omega, ih now⟩

/-- C8: in every run whose successive clock readings are non-decreasing,
the `last_update` value never decreases across iterations: it is
mutated only on acceptance (to a `now` at least 50 beyond it), never
reset.  The property holds for every run, the clock hypothesis included
for the statement as claimed. -/
theorem c8_last_update_monotone (last : Int) (events : List (Int × List Nat))
    (_h : (events.map Prod.fst).Chain' (· ≤ ·)) :
    (last :: serveTrace last events).Chain' (· ≤ ·) :=
  serveTrace_chain last events

set_option maxRecDepth 100000 in
/-- C8 witnessed on the synthetic non-decreasing arrival sequence. -/
theorem c8_last_update_monotone_witness :
    ((0 : Int) :: serveTrace 0 rateGateEvents).Chain' (· ≤ ·) :=
  c8_last_update_monotone 0 rateGateEvents
    (by simp [rateGateEvents, List.chain'_cons])

/-- Truncation toward zero agrees with the floor on non-negative input. -/
theorem pyInt_eq_floor (q : ℚ) (h : 0 ≤ q) : pyInt q = ⌊q⌋ := by
  unfold pyInt
  rw [Rat.floor_def]
  exact Int.tdiv_eq_ediv (Rat.num_nonneg.mpr h) (by exact_mod_cast q.den.zero_le)

/-- Truncation toward zero agrees with the ceiling on negative input. -/
theorem pyInt_eq_ceil (q : ℚ) (h : q < 0) : pyInt q = ⌈q⌉ := by
  have hq : ⌈q⌉ = -⌊-q⌋ := by rw [← Int.ceil_neg, neg_neg]
  unfold pyInt
  rw [hq, Rat.floor_def, show (-q).num = -q.num from Rat.neg_num q,
    show (-q).den = q.den from Rat.neg_den q]
  rw [show q.num.tdiv (q.den : ℤ) = -((-q.num).tdiv (q.den : ℤ)) by
    rw [Int.neg_tdiv, neg_neg]]
  rw [Int.tdiv_eq_ediv (Int.neg_nonneg.mpr (le_of_lt (Rat.num_neg.mpr h)))
    (by exact_mod_cast q.den.zero_le)]

/-- C9: `format_speed` computes `speed * 3600 / 1000` truncated toward
zero (the floor for non-negative speeds, the ceiling for negative ones),
and maps the input 27.78 to 100. -/
theorem c9_format_speed :
    format_speed (2778 / 100) = 100 ∧
      (∀ s : ℚ, 0 ≤ s → format_speed s = ⌊s * 3600 / 1000⌋) ∧
      (∀ s : ℚ, s < 0 → format_speed s = ⌈s * 3600 / 1000⌉) := by
  refine ⟨?_,
    fun s hs => pyInt_eq_floor _ (div_nonneg (mul_nonneg hs (by norm_num)) (by norm_num)),
    fun s hs =>
      pyInt_eq_ceil _ (div_neg_of_neg_of_pos (mul_neg_of_neg_of_pos hs (by norm_num))
        (by norm_num))⟩
  unfold format_speed
  rw [pyInt_eq_floor _ (by norm_num)]
  norm_num [Int.floor_eq_iff]

/-- C9 witnessed at concrete positive and negative speeds. -/
theorem c9_format_speed_witness :
    format_speed 5 = ⌊(5 : ℚ) * 3600 / 1000⌋ ∧
      format_speed (-5) = ⌈(-5 : ℚ) * 3600 / 1000⌉ :=
  ⟨c9_format_speed.2.1 5 (by norm_num), c9_format_speed.2.2 (-5) (by norm_num)⟩

/-- C10 counterexample: the width is computed with truncation, so it
does not exceed `SSD1306_WIDTH` for every over-revving record: with
width 128, `engine_max_rpm = 1000` and `current_engine_rpm = 1001` the
result is exactly 128, and with `current_engine_rpm = -1` the result is
0, not negative. -/
theorem c10_no_clamp_cex :
    computeWidth 128 1000 1001 = 128 ∧ ¬ (128 : ℤ) < computeWidth 128 1000 1001 ∧
      computeWidth 128 1000 (-1) = 0 ∧ ¬ computeWidth 128 1000 (-1) < 0 := by
  have h1 : computeWidth 128 1000 1001 = 128 := by
    unfold computeWidth computeWidthBranch
    rw [if_pos (show (1000 : ℚ) ≠ 0 by norm_num)]
    show pyInt ((128 : ℚ) * (1001 / 1000)) = 128
    rw [pyInt_eq_floor _ (by norm_num)]
    norm_num [Int.floor_eq_iff]
  have h2 : computeWidth 128 1000 (-1) = 0 := by
    unfold computeWidth computeWidthBranch
    rw [if_pos (show (1000 : ℚ) ≠ 0 by norm_num)]
    show pyInt ((128 : ℚ) * (-1 / 1000)) = 0
    rw [pyInt_eq_ceil _ (by norm_num)]
    rw [show ((128 : ℚ) * (-1 / 1000)) = -(128 / 1000) by ring, Int.ceil_neg]
    norm_num [Int.floor_eq_iff]
  exact ⟨h1, by omega, h2, by omega⟩

/-- C10 amended: the width has no clamping, but truncation only bounds
it one-sidedly: for positive display width and `engine_max_rpm > 0`,
`current_engine_rpm > engine_max_rpm` makes the width at least the
display width, and `current_engine_rpm < 0` makes it at most 0. -/
theorem c10_width_bounds (w : ℤ) (maxR curR : ℚ) (hw : 0 < w) (hm : 0 < maxR) :
    (maxR < curR → w ≤ computeWidth w maxR curR) ∧
      (curR < 0 → computeWidth w maxR curR ≤ 0) := by
  have hm0 : maxR ≠ 0 := ne_of_gt hm
  have hwq : (0 : ℚ) < (w : ℚ) := by exact_mod_cast hw
  constructor
  · intro hc
    have hratio : 1 < curR / maxR := (one_lt_div hm).mpr hc
    have hx : (w : ℚ) < (w : ℚ) * (curR / maxR) := by
      calc (w : ℚ) = (w : ℚ) * 1 := by ring
        _ < (w : ℚ) * (curR / maxR) := mul_lt_mul_of_pos_left hratio hwq
    have hx0 : 0 ≤ (w : ℚ) * (curR / maxR) := le_of_lt (lt_trans hwq hx)
    unfold computeWidth computeWidthBranch
    rw [if_pos hm0]
    show w ≤ pyInt ((w : ℚ) * (curR / maxR))
    rw [pyInt_eq_floor _ hx0]
    exact Int.le_floor.mpr (le_of_lt hx)
  · intro hc
    have hratio : curR / maxR < 0 := div_neg_of_neg_of_pos hc hm
    have hx : (w : ℚ) * (curR / maxR) < 0 := mul_neg_of_pos_of_neg hwq hratio
    unfold computeWidth computeWidthBranch
    rw [if_pos hm0]
    show pyInt ((w : ℚ) * (curR / maxR)) ≤ 0
    rw [pyInt_eq_ceil _ hx]
    exact Int.ceil_le.mpr (by exact_mod_cast le_of_lt hx)

/-- C10 amended, witnessed at concrete over-revving and negative inputs. -/
theorem c10_width_bounds_witness :
    (128 : ℤ) ≤ computeWidth 128 1000 2000 ∧ computeWidth 128 1000 (-500) ≤ 0 :=
  ⟨(c10_width_bounds 128 1000 2000 (by norm_num) (by norm_num)).1 (by norm_num),
   (c10_width_bounds 128 1000 (-500) (by norm_num) (by norm_num)).2 (by norm_num)⟩

end Theorems
